import Mathlib

/-!
Verification of the BLE vehicle lock firmware (controller in
`src/unnamed/part_001`, key in `src/BLE_Secure_Client_v2.ino`).

The controller is embedded as a state machine: one record of the global
mutable state of the sketch and one executable transition per BLE callback
(GAP events, server connect/disconnect, characteristic writes, security
callbacks, the lockout-pruning loop body).  Arduino `String` values are
embedded as `List Char`; `std::map` values as association lists with exact
key equality; physical actuation and notifications become an explicit
output list.  SHA-256 itself is an external mbedtls primitive, so the
development is parametric in an arbitrary compression function `sha256`;
`compute_hmac_sha256` is translated faithfully on top of it.
-/

namespace IOTLock

/-- Arduino `String` contents, embedded as a list of characters. -/
abbrev Chars := List Char

/-- Exact-key lookup in an association list, as `std::map::find`. -/
def mapLookup {α : Type} : List (Chars × α) → Chars → Option α
  | [], _ => none
  | (k', v) :: tl, k => if k' == k then some v else mapLookup tl k

/-- Insert or overwrite a key, as `std::map::operator[]` assignment. -/
def setKey {α : Type} : List (Chars × α) → Chars → α → List (Chars × α)
  | [], k, v => [(k, v)]
  | (k', v') :: tl, k, v =>
    if k' == k then (k, v) :: tl else (k', v') :: setKey tl k v

/-- Remove a key, as `std::map::erase`. -/
def eraseKey {α : Type} (m : List (Chars × α)) (k : Chars) : List (Chars × α) :=
  m.filter (fun p => !(p.1 == k))

/-- Read a counter with the `std::map<String,int>::operator[]` default of 0. -/
def lookupD (m : List (Chars × Nat)) (k : Chars) : Nat :=
  (mapLookup m k).getD 0

/-- Arduino `String::equalsIgnoreCase`: case-insensitive ASCII comparison. -/
def equalsIgnoreCase (a b : Chars) : Bool :=
  a.map Char.toLower == b.map Char.toLower

namespace Server

/-- The `MAX_FAILED_ATTEMPTS` from the sketch. -/
def MAX_FAILED_ATTEMPTS : Nat := 5

/-- The `LOCKOUT_DURATION_MS = 5 * 60 * 1000` from the sketch. -/
def LOCKOUT_DURATION_MS : Nat := 5 * 60 * 1000

/-- The `PASSKEY = "123456"` after `atoi`, as used by `onConfirmPIN`. -/
def PASSKEY : Nat := 123456

/-- The application-layer shared secret `APP_SECRET`, as its byte values. -/
def APP_SECRET : List Nat := "SuperSecretAppKey_ReplaceThis".data.map Char.toNat

/-- The `DisconnectReason` from the sketch. -/
inductive DisconnectReason where
  | NORMAL
  | AUTH_FAILURE
deriving Repr, DecidableEq

/-- The output pins driven by the command dispatcher. -/
inductive Pin where
  | LOCK
  | UNLOCK
  | TRUNK
  | ELIGHT
  | LOCATE
deriving Repr, DecidableEq

/-- The `Command` from the sketch. -/
inductive Command where
  | LOCK
  | UNLOCK
  | TRUNK
  | LOCATE
  | ELIGHT
  | UNKNOWN
deriving Repr, DecidableEq

/-- Observable effects of a callback: notifications on characteristic 1,
pin actuations (`controlPin`/`blinkPin` with their durations in ms), and
`pServer->disconnect`. -/
inductive Output where
  | notify (msg : Chars)
  | controlPin (pin : Pin) (ms : Nat)
  | blinkPin (pin : Pin) (ms : Nat)
  | disconnectLink
deriving Repr, DecidableEq

/-- The `COMMAND_RESPONSES` from the sketch (exact-key map from command text to
its acknowledgement string). -/
def COMMAND_RESPONSES : List (Chars × Chars) :=
  [("LOCK".data, "Door Locked".data),
   ("UNLOCK".data, "Door Unlocked".data),
   ("LOCATE".data, "Located".data),
   ("TRUNK".data, "Trunk Released".data),
   ("ELIGHT".data, "Emergency Light".data)]

/-- The global mutable state of the controller sketch (connection flags,
lock state, per-MAC whitelist, failure counters, lockout expiries and
outstanding challenges).  Sleep/advertising bookkeeping is out of scope. -/
structure CtrlState where
  deviceConnected : Bool
  isAuthenticated : Bool
  bleAuthenticated : Bool
  isLocked : Bool
  lastDisconnectReason : DisconnectReason
  lastRemoteAddr : Chars
  whitelist : List Chars
  failedAttempts : List (Chars × Nat)
  lockoutUntil : List (Chars × Nat)
  challenges : List (Chars × List Nat)
deriving Repr, DecidableEq

/-- The state after `setup()`: no connection, nothing authenticated,
`isLocked = false`, empty tables (whitelist persistence is external). -/
def initState : CtrlState :=
  { deviceConnected := false
    isAuthenticated := false
    bleAuthenticated := false
    isLocked := false
    lastDisconnectReason := .NORMAL
    lastRemoteAddr := []
    whitelist := []
    failedAttempts := []
    lockoutUntil := []
    challenges := [] }

/-- The `toHex`: uppercase hex encoding of a byte sequence. -/
def toHex (data : List Nat) : Chars :=
  data.foldl
    (fun s v => s ++ ["0123456789ABCDEF".data.getD ((v >>> 4) &&& 0xF) '0',
                      "0123456789ABCDEF".data.getD (v &&& 0xF) '0'])
    []

/-- The `compute_hmac_sha256` from the sketch, parametric in the external
mbedtls SHA-256 primitive: zero-pad (or hash) the key to the 64-byte block,
XOR with the inner/outer pads, and hash twice. -/
def compute_hmac_sha256 (sha256 : List Nat → List Nat)
    (key data : List Nat) : List Nat :=
  let blockSize := 64
  let keyBlock :=
    if blockSize < key.length then
      let h := (sha256 key).take 32
      h ++ List.replicate (blockSize - h.length) 0
    else key ++ List.replicate (blockSize - key.length) 0
  let o_key_pad := keyBlock.map (fun b => b ^^^ 0x5c)
  let i_key_pad := keyBlock.map (fun b => b ^^^ 0x36)
  let innerHash := sha256 (i_key_pad ++ data)
  sha256 (o_key_pad ++ innerHash)

/-- The `isWhitelisted`: case-insensitive membership in the whitelist. -/
def isWhitelisted (wl : List Chars) (mac : Chars) : Bool :=
  wl.any (fun m => equalsIgnoreCase m mac)

/-- The `addToWhitelist`: append the MAC unless already present. -/
def addToWhitelist (wl : List Chars) (mac : Chars) : List Chars :=
  if !isWhitelisted wl mac then wl ++ [mac] else wl

/-- The `parseCommand`: uppercase the text and match it against the vocabulary. -/
def parseCommand (command : Chars) : Command :=
  let cmd := command.map Char.toUpper
  if cmd == "LOCK".data then .LOCK
  else if cmd == "UNLOCK".data then .UNLOCK
  else if cmd == "TRUNK".data then .TRUNK
  else if cmd == "LOCATE".data then .LOCATE
  else if cmd == "ELIGHT".data then .ELIGHT
  else .UNKNOWN

/-- The failure-recording pattern repeated in the sketch: increment the
per-MAC counter and, at `MAX_FAILED_ATTEMPTS`, stamp a lockout expiry. -/
def recordFailure (fa lk : List (Chars × Nat)) (mac : Chars) (now : Nat) :
    List (Chars × Nat) × List (Chars × Nat) :=
  let n := lookupD fa mac + 1
  let fa' := setKey fa mac n
  let lk' := if MAX_FAILED_ATTEMPTS ≤ n
             then setKey lk mac (now + LOCKOUT_DURATION_MS) else lk
  (fa', lk')

/-- The lockout gate at the top of `CharacteristicCallBack::onWrite`:
`none` when the peer is locked out (write ignored), otherwise the state
with an expired record pruned and the failure counter reset. -/
def lockoutGate (st : CtrlState) (now : Nat) : Option CtrlState :=
  match mapLookup st.lockoutUntil st.lastRemoteAddr with
  | some t =>
    if now < t then none
    else some { st with lockoutUntil := eraseKey st.lockoutUntil st.lastRemoteAddr,
                        failedAttempts := setKey st.failedAttempts st.lastRemoteAddr 0 }
  | none => some st

/-- The rest of `CharacteristicCallBack::onWrite` after the lockout gate:
the `RESP:` hex challenge verification, the re-challenge path for
link-authenticated but app-unauthenticated peers, and the command
dispatcher. -/
def onWriteBody (sha256 : List Nat → List Nat) (st1 : CtrlState)
    (receivedValue : Chars) (now : Nat) : CtrlState × List Output :=
  let remote := st1.lastRemoteAddr
  if "RESP:".data.isPrefixOf receivedValue then
      let respHex := receivedValue.drop 5
      match mapLookup st1.challenges remote with
      | none =>
        let r := recordFailure st1.failedAttempts st1.lockoutUntil remote now
        ({ st1 with failedAttempts := r.1, lockoutUntil := r.2 }, [])
      | some nonce =>
        let expectedHex := toHex (compute_hmac_sha256 sha256 APP_SECRET nonce)
        if equalsIgnoreCase expectedHex respHex then
          let st2 := { st1 with isAuthenticated := true }
          let st3 := if st2.bleAuthenticated
                     then { st2 with whitelist := addToWhitelist st2.whitelist remote }
                     else st2
          ({ st3 with challenges := eraseKey st3.challenges remote },
           [.notify "AUTH_OK".data])
        else
          let r := recordFailure st1.failedAttempts st1.lockoutUntil remote now
          ({ st1 with failedAttempts := r.1, lockoutUntil := r.2 },
           [.notify "AUTH_FAIL".data])
    else
      if !st1.bleAuthenticated || !st1.isAuthenticated then
        if st1.bleAuthenticated && !st1.isAuthenticated then
          match mapLookup st1.challenges remote with
          | some nonce => (st1, [.notify ("CHALLENGE:".data ++ toHex nonce)])
          | none => (st1, [])
        else (st1, [])
      else
        match mapLookup COMMAND_RESPONSES receivedValue with
        | some response =>
          let acted :=
            match parseCommand receivedValue with
            | .LOCK => ({ st1 with isLocked := true }, [Output.controlPin .LOCK 500])
            | .UNLOCK => ({ st1 with isLocked := false }, [Output.controlPin .UNLOCK 500])
            | .TRUNK => (st1, [Output.controlPin .TRUNK 1000])
            | .LOCATE => (st1, [Output.blinkPin .LOCATE 3000])
            | .ELIGHT => (st1, [Output.controlPin .ELIGHT 30000])
            | .UNKNOWN => (st1, [])
          (acted.1, acted.2 ++ [.notify response])
        | none => (st1, [.notify "INVALID_COMMAND".data])

/-- The `CharacteristicCallBack::onWrite`: the lockout gate followed by the
body.  The gate never changes `lastRemoteAddr`, so threading the gated
state through the body is faithful to the sketch's single `remote`. -/
def onWrite (sha256 : List Nat → List Nat) (st : CtrlState)
    (receivedValue : Chars) (now : Nat) : CtrlState × List Output :=
  match lockoutGate st now with
  | none => (st, [])
  | some st1 => onWriteBody sha256 st1 receivedValue now

/-- The `MyServerCallbacks::onConnect`. -/
def onConnect (st : CtrlState) : CtrlState :=
  { st with deviceConnected := true, isAuthenticated := false,
            bleAuthenticated := false, lastDisconnectReason := .NORMAL }

/-- The `performLock`: pulse the LOCK pin and set the lock-state flag. -/
def performLock (st : CtrlState) : CtrlState × List Output :=
  ({ st with isLocked := true }, [.controlPin .LOCK 500])

/-- The `MyServerCallbacks::onDisconnect`: clear the connection flags and, on a
normal disconnect with the lock open, perform the automatic lock. -/
def onDisconnect (st : CtrlState) : CtrlState × List Output :=
  let st1 := { st with deviceConnected := false, isAuthenticated := false,
                       bleAuthenticated := false }
  if st1.lastDisconnectReason = .NORMAL then
    if !st1.isLocked then performLock st1 else (st1, [])
  else (st1, [])

/-- The `gapCallback` on `ESP_GAP_BLE_UPDATE_CONN_PARAMS_EVT`: record the remote
address and disconnect a locked-out peer (pruning an expired record). -/
def gapConnParams (st : CtrlState) (mac : Chars) (now : Nat) :
    CtrlState × List Output :=
  let st1 := { st with lastRemoteAddr := mac }
  match mapLookup st1.lockoutUntil mac with
  | some t =>
    if now < t then (st1, [.disconnectLink])
    else ({ st1 with lockoutUntil := eraseKey st1.lockoutUntil mac,
                     failedAttempts := setKey st1.failedAttempts mac 0 }, [])
  | none => (st1, [])

/-- The `gapCallback` on `ESP_GAP_BLE_AUTH_CMPL_EVT`: on link success reset the
failure counter and issue a fresh challenge (whether or not whitelisted);
on failure record the failure and disconnect.  The nonce drawn from
`generateNonce` is an input of the event. -/
def gapAuthCmpl (st : CtrlState) (mac : Chars) (success : Bool)
    (nonce : List Nat) (now : Nat) : CtrlState × List Output :=
  let st1 := { st with lastRemoteAddr := mac }
  if success then
    ({ st1 with bleAuthenticated := true,
                failedAttempts := setKey st1.failedAttempts mac 0,
                challenges := setKey st1.challenges mac nonce },
     [.notify ("CHALLENGE:".data ++ toHex nonce)])
  else
    let st2 := { st1 with bleAuthenticated := false,
                          lastDisconnectReason := .AUTH_FAILURE }
    let r := recordFailure st2.failedAttempts st2.lockoutUntil mac now
    ({ st2 with failedAttempts := r.1, lockoutUntil := r.2 },
     [.disconnectLink])

/-- The `MySecurityCallbacks::onConfirmPIN`: compare the passkey; on mismatch
record the failure and disconnect.  Returns the match result. -/
def onConfirmPIN (st : CtrlState) (passkey : Nat) (now : Nat) :
    CtrlState × List Output × Bool :=
  let mtch := passkey == PASSKEY
  if !mtch then
    let st1 := { st with bleAuthenticated := false }
    let r := recordFailure st1.failedAttempts st1.lockoutUntil st1.lastRemoteAddr now
    ({ st1 with failedAttempts := r.1, lockoutUntil := r.2 },
     [.disconnectLink], false)
  else (st, [], true)

/-- The `MySecurityCallbacks::onAuthenticationComplete`: like the GAP
auth-complete event, but a failure leaves `lastDisconnectReason` alone. -/
def secAuthComplete (st : CtrlState) (mac : Chars) (success : Bool)
    (nonce : List Nat) (now : Nat) : CtrlState × List Output :=
  let st1 := { st with lastRemoteAddr := mac }
  if success then
    ({ st1 with bleAuthenticated := true,
                failedAttempts := setKey st1.failedAttempts mac 0,
                challenges := setKey st1.challenges mac nonce },
     [.notify ("CHALLENGE:".data ++ toHex nonce)])
  else
    let st2 := { st1 with bleAuthenticated := false }
    let r := recordFailure st2.failedAttempts st2.lockoutUntil mac now
    ({ st2 with failedAttempts := r.1, lockoutUntil := r.2 },
     [.disconnectLink])

/-- The lockout-pruning pass of `loop()`: erase entries whose expiry is in
the past (strictly, `millis() > it->second`). -/
def loopPrune (st : CtrlState) (now : Nat) : CtrlState :=
  { st with lockoutUntil := st.lockoutUntil.filter (fun p => !decide (p.2 < now)) }

/-- The controller's asynchronous events, each carrying the data the
corresponding callback reads from its parameters or from `millis()` and
`esp_random()`. -/
inductive Event where
  | gapConnParams (mac : Chars) (now : Nat)
  | gapAuthCmpl (mac : Chars) (success : Bool) (nonce : List Nat) (now : Nat)
  | connect
  | disconnect
  | write (value : Chars) (now : Nat)
  | confirmPIN (passkey : Nat) (now : Nat)
  | secAuthComplete (mac : Chars) (success : Bool) (nonce : List Nat) (now : Nat)
  | loopPrune (now : Nat)
deriving Repr

/-- One dispatch of the controller state machine. -/
def step (sha256 : List Nat → List Nat) (ev : Event) (st : CtrlState) :
    CtrlState × List Output :=
  match ev with
  | .gapConnParams mac now => gapConnParams st mac now
  | .gapAuthCmpl mac success nonce now => gapAuthCmpl st mac success nonce now
  | .connect => (onConnect st, [])
  | .disconnect => onDisconnect st
  | .write v now => onWrite sha256 st v now
  | .confirmPIN pk now =>
    let r := onConfirmPIN st pk now
    (r.1, r.2.1)
  | .secAuthComplete mac success nonce now => secAuthComplete st mac success nonce now
  | .loopPrune now => (loopPrune st now, [])

end Server

namespace Client

/-- The `RSSI_THRESHOLD = -93`: the single signal-strength threshold the key
sketch uses for both auto-lock and auto-unlock decisions. -/
def RSSI_THRESHOLD : Int := -93

/-- The `RSSI_HISTORY_SIZE = 5`. -/
def RSSI_HISTORY_SIZE : Nat := 5

/-- The `RSSI_CONFIRMATION_DELAY = 2000` ms. -/
def RSSI_CONFIRMATION_DELAY : Nat := 2000

/-- The `LockStatus` from the key sketch. -/
inductive LockStatus where
  | NONE
  | LOCKED
  | UNLOCKED
deriving Repr, DecidableEq

/-- The key sketch's global mutable state relevant to the proximity and
manual-override logic (watchdog, sleep and BLE plumbing are out of scope). -/
structure KeyState where
  connected : Bool
  rssiHistory : List Int
  lockStatus : LockStatus
  isManualLock : Bool
  lastRssiTriggerTime : Nat
deriving Repr, DecidableEq

/-- The `addRSSI`: append an in-range sample, dropping the oldest beyond the
history capacity; silently discard an out-of-range sample. -/
def addRSSI (hist : List Int) (rssi : Int) : List Int :=
  if -100 ≤ rssi ∧ rssi ≤ 0 then
    let h := hist ++ [rssi]
    if RSSI_HISTORY_SIZE < h.length then h.drop 1 else h
  else hist

/-- The `std::sort` call inside `getMedianRSSI`, as an insertion sort. -/
def insertSorted (x : Int) : List Int → List Int
  | [] => [x]
  | y :: tl => if x ≤ y then x :: y :: tl else y :: insertSorted x tl

/-- Ascending sort of the history copy. -/
def sortInts (l : List Int) : List Int := l.foldr insertSorted []

/-- The `getMedianRSSI`: -127 on an empty history, otherwise the middle element
of the sorted history. -/
def getMedianRSSI (hist : List Int) : Int :=
  if hist.isEmpty then -127
  else (sortInts hist).getD (hist.length / 2) 0

/-- The `shouldAutoUnlock`: suppressed under the manual-lock flag, otherwise a
strict threshold comparison. -/
def shouldAutoUnlock (st : KeyState) (rssi : Int) : Bool :=
  if st.isManualLock then false else decide (RSSI_THRESHOLD < rssi)

/-- The `shouldAutoLock`: below the threshold while the status is UNLOCKED. -/
def shouldAutoLock (st : KeyState) (rssi : Int) : Bool :=
  decide (rssi < RSSI_THRESHOLD) && decide (st.lockStatus = .UNLOCKED)

/-- The `sendCommand`: write the command when connected and update the lock
status and manual-lock flag for LOCK/UNLOCK.  The sent command strings are
the output. -/
def sendCommand (st : KeyState) (command : Chars) : KeyState × List Chars :=
  if !st.connected then (st, [])
  else
    let st1 :=
      if command == "LOCK".data then
        { st with lockStatus := .LOCKED, isManualLock := true }
      else if command == "UNLOCK".data then
        { st with lockStatus := .UNLOCKED, isManualLock := false }
      else st
    (st1, [command])

/-- The `handleDistanceChange`: after the confirmation delay, fire auto-UNLOCK
when permitted and near, else auto-LOCK when unlocked and far. -/
def handleDistanceChange (st : KeyState) (rssi : Int) (currentTime : Nat) :
    KeyState × List Chars :=
  if currentTime - st.lastRssiTriggerTime < RSSI_CONFIRMATION_DELAY then (st, [])
  else if shouldAutoUnlock st rssi &&
          (decide (st.lockStatus = .NONE) || decide (st.lockStatus = .LOCKED)) then
    let r := sendCommand st "UNLOCK".data
    ({ r.1 with lockStatus := .UNLOCKED, lastRssiTriggerTime := currentTime }, r.2)
  else if shouldAutoLock st rssi then
    let r := sendCommand st "LOCK".data
    ({ r.1 with lockStatus := .LOCKED, lastRssiTriggerTime := currentTime }, r.2)
  else (st, [])

/-- Substring test backing `String::indexOf(x) != -1`. -/
def containsSub : Chars → Chars → Bool
  | [], pat => pat.isEmpty
  | c :: tl, pat => pat.isPrefixOf (c :: tl) || containsSub tl pat

/-- The `notifyCallback`: adjust the lock status (and manual-lock flag) from a
server response notification. -/
def notifyCallback (st : KeyState) (response : Chars) : KeyState :=
  if containsSub response "Unlocked".data then
    { st with lockStatus := .UNLOCKED, isManualLock := false }
  else if containsSub response "Locked".data then
    { st with lockStatus := .LOCKED }
  else st

/-- The `ClientSecurityCallbacks::onAuthenticationComplete`: on success,
evaluate the auto-unlock rule once on the current median. -/
def onAuthenticationComplete (st : KeyState) (success : Bool) :
    KeyState × List Chars :=
  if success then
    if st.connected && shouldAutoUnlock st (getMedianRSSI st.rssiHistory) &&
       (decide (st.lockStatus = .NONE) || decide (st.lockStatus = .LOCKED)) then
      let r := sendCommand st "UNLOCK".data
      ({ r.1 with lockStatus := .UNLOCKED }, r.2)
    else (st, [])
  else (st, [])

end Client

/-- A concrete stand-in for the external SHA-256 primitive, used only to
instantiate closed statements; the theorems are parametric in it. -/
def shaZero : List Nat → List Nat := fun _ => List.replicate 32 0

/-- The event is a characteristic write carrying `RESP:<hex>` whose hex
digest verifies, case-insensitively, against the HMAC of the outstanding
challenge stored for the current peer under the shared secret. -/
def validRespStep (sha256 : List Nat → List Nat) (st : Server.CtrlState)
    (ev : Server.Event) : Prop :=
  ∃ v now, ev = .write v now ∧ "RESP:".data.isPrefixOf v = true ∧
    ∃ nonce, mapLookup st.challenges st.lastRemoteAddr = some nonce ∧
      equalsIgnoreCase
        (Server.toHex (Server.compute_hmac_sha256 sha256 Server.APP_SECRET nonce))
        (v.drop 5) = true

/-- C10: every `addRSSI` call keeps the history at most 5 samples long with
each sample in [-100, 0], discards an out-of-range sample unchanged, and
`getMedianRSSI` returns -127 on an empty history, below the threshold, so
`shouldAutoUnlock` cannot fire before the first valid sample. -/
theorem c10_rssi_history_invariant :
    (∀ (hist : List Int) (rssi : Int),
      (hist.length ≤ Client.RSSI_HISTORY_SIZE ∧ ∀ x ∈ hist, -100 ≤ x ∧ x ≤ 0) →
        ((Client.addRSSI hist rssi).length ≤ Client.RSSI_HISTORY_SIZE ∧
         ∀ x ∈ Client.addRSSI hist rssi, -100 ≤ x ∧ x ≤ 0)) ∧
    (∀ (hist : List Int) (rssi : Int), (rssi < -100 ∨ 0 < rssi) →
        Client.addRSSI hist rssi = hist) ∧
    Client.getMedianRSSI [] = -127 ∧
    (∀ st : Client.KeyState, st.rssiHistory = [] →
        Client.shouldAutoUnlock st (Client.getMedianRSSI st.rssiHistory) = false) := by
  refine ⟨?_, ?_, rfl, ?_⟩
  · intro hist rssi h
    obtain ⟨hlen, hmem⟩ := h
    simp only [Client.addRSSI]
    split
    · rename_i hin
      split
      · rename_i hlong
        constructor
        · simp only [List.length_drop, List.length_append, List.length_singleton]
          simp only [Client.RSSI_HISTORY_SIZE] at *
          omega
        · intro x hx
          have hx' := List.mem_of_mem_drop hx
          rcases List.mem_append.mp hx' with h1 | h2
          · exact hmem x h1
          · simp only [List.mem_singleton] at h2
            subst h2
            exact ⟨hin.1, hin.2⟩
      · constructor
        · rename_i hshort
          simp only [List.length_append, List.length_singleton] at hshort ⊢
          simp only [Client.RSSI_HISTORY_SIZE] at *
          omega
        · intro x hx
          rcases List.mem_append.mp hx with h1 | h2
          · exact hmem x h1
          · simp only [List.mem_singleton] at h2
            subst h2
            exact ⟨hin.1, hin.2⟩
    · exact ⟨hlen, hmem⟩
  · intro hist rssi h
    simp only [Client.addRSSI]
    rw [if_neg]
    rintro ⟨h1, h2⟩
    rcases h with h | h <;> omega
  · intro st h
    simp only [Client.shouldAutoUnlock, h, Client.getMedianRSSI, Client.RSSI_THRESHOLD,
               List.isEmpty_nil, if_true]
    split
    · rfl
    · decide

/-- Witness for C10 at concrete inputs. -/
theorem c10_witness :
    ((Client.addRSSI [-90] (-91)).length ≤ Client.RSSI_HISTORY_SIZE ∧
      ∀ x ∈ Client.addRSSI [-90] (-91), -100 ≤ x ∧ x ≤ 0) ∧
    Client.addRSSI [-90] 5 = [-90] ∧
    Client.shouldAutoUnlock ⟨true, [], .NONE, false, 0⟩
      (Client.getMedianRSSI ([] : List Int)) = false :=
  ⟨c10_rssi_history_invariant.1 [-90] (-91) (by decide),
   c10_rssi_history_invariant.2.1 [-90] 5 (Or.inr (by decide)),
   c10_rssi_history_invariant.2.2.2 ⟨true, [], .NONE, false, 0⟩ rfl⟩

/-- C8 counterexample: the key sketch uses the single threshold -93 for both
directions, so the claimed band (T_unlock - 1, T_lock + 1) is not trigger
free: from LOCKED state with the debounce elapsed, the sample
T_lock + 1 = -92 fires an auto UNLOCK. -/
theorem c8_counterexample :
    (Client.handleDistanceChange ⟨true, [], .LOCKED, false, 0⟩ (-92) 2000).2 =
      ["UNLOCK".data] := by decide

/-- C8 amended: both `shouldAutoUnlock` and `shouldAutoLock` compare against
the one constant `RSSI_THRESHOLD = -93`; with the confirmation delay
elapsed, a median one unit above it auto-unlocks (when not manually locked)
and one unit below it auto-locks (when unlocked), so oscillation across the
threshold triggers alternating commands. -/
theorem c8_single_threshold_triggers :
    ∀ (st : Client.KeyState) (now : Nat),
      st.connected = true → st.isManualLock = false →
      Client.RSSI_CONFIRMATION_DELAY ≤ now - st.lastRssiTriggerTime →
      (st.lockStatus = .LOCKED →
        (Client.handleDistanceChange st (-92) now).2 = ["UNLOCK".data] ∧
        (Client.handleDistanceChange st (-92) now).1.lockStatus = .UNLOCKED ∧
        (Client.handleDistanceChange st (-92) now).1.lastRssiTriggerTime = now) ∧
      (st.lockStatus = .UNLOCKED →
        (Client.handleDistanceChange st (-94) now).2 = ["LOCK".data] ∧
        (Client.handleDistanceChange st (-94) now).1.lockStatus = .LOCKED ∧
        (Client.handleDistanceChange st (-94) now).1.lastRssiTriggerTime = now) := by
  intro st now hc hm hd
  have hdeb : ¬ (now - st.lastRssiTriggerTime < Client.RSSI_CONFIRMATION_DELAY) := by omega
  constructor
  · intro hL
    simp +decide [Client.handleDistanceChange, Client.shouldAutoUnlock,
      Client.shouldAutoLock, Client.sendCommand, Client.RSSI_THRESHOLD,
      hc, hm, hL, hdeb]
  · intro hU
    simp +decide [Client.handleDistanceChange, Client.shouldAutoUnlock,
      Client.shouldAutoLock, Client.sendCommand, Client.RSSI_THRESHOLD,
      hc, hm, hU, hdeb]

/-- Witness for C8 at concrete inputs. -/
theorem c8_witness :
    (Client.handleDistanceChange ⟨true, [], .UNLOCKED, false, 0⟩ (-94) 2500).2 =
      ["LOCK".data] :=
  ((c8_single_threshold_triggers ⟨true, [], .UNLOCKED, false, 0⟩ 2500
      rfl rfl (by decide)).2 rfl).1

/-- C9 counterexample: the manual-override flag is also cleared by a server
notification containing "Unlocked" (the `notifyCallback` path), with no
manual UNLOCK command sent and no authentication event. -/
theorem c9_counterexample :
    (⟨true, [], .LOCKED, true, 0⟩ : Client.KeyState).isManualLock = true ∧
    (Client.notifyCallback ⟨true, [], .LOCKED, true, 0⟩
        "Door Unlocked".data).isManualLock = false := by decide

/-- C9 amended: a (manual) LOCK send sets the flag; while it is set neither
`handleDistanceChange` nor `onAuthenticationComplete` ever sends UNLOCK and
the latter preserves the flag; the flag is cleared by sending UNLOCK or by a
received notification containing "Unlocked". -/
theorem c9_manual_override :
    (∀ st : Client.KeyState, st.connected = true →
        (Client.sendCommand st "LOCK".data).1.isManualLock = true) ∧
    (∀ (st : Client.KeyState) (rssi : Int) (now : Nat), st.isManualLock = true →
        "UNLOCK".data ∉ (Client.handleDistanceChange st rssi now).2) ∧
    (∀ (st : Client.KeyState) (b : Bool), st.isManualLock = true →
        (Client.onAuthenticationComplete st b).1.isManualLock = true ∧
        "UNLOCK".data ∉ (Client.onAuthenticationComplete st b).2) ∧
    (∀ st : Client.KeyState, st.connected = true →
        (Client.sendCommand st "UNLOCK".data).1.isManualLock = false) ∧
    (∀ (st : Client.KeyState) (r : Chars), Client.containsSub r "Unlocked".data = true →
        (Client.notifyCallback st r).isManualLock = false) := by
  refine ⟨?_, ?_, ?_, ?_, ?_⟩
  · intro st hc
    simp +decide [Client.sendCommand, hc]
  · intro st rssi now hm
    have hsu : Client.shouldAutoUnlock st rssi = false := by
      simp [Client.shouldAutoUnlock, hm]
    by_cases h1 : now - st.lastRssiTriggerTime < Client.RSSI_CONFIRMATION_DELAY
    · simp [Client.handleDistanceChange, h1]
    · by_cases h3 : Client.shouldAutoLock st rssi
      · by_cases h4 : st.connected
        · simp +decide [Client.handleDistanceChange, Client.sendCommand,
            hsu, h1, h3, h4]
        · simp [Client.handleDistanceChange, Client.sendCommand, hsu, h1, h3, h4]
      · simp [Client.handleDistanceChange, hsu, h1, h3]
  · intro st b hm
    have hsu : Client.shouldAutoUnlock st (Client.getMedianRSSI st.rssiHistory) = false := by
      simp [Client.shouldAutoUnlock, hm]
    simp [Client.onAuthenticationComplete, hsu, hm]
  · intro st hc
    simp +decide [Client.sendCommand, hc]
  · intro st r h
    simp [Client.notifyCallback, h]

/-- Witness for C9 at concrete inputs. -/
theorem c9_witness :
    (Client.sendCommand ⟨true, [], .NONE, false, 0⟩ "LOCK".data).1.isManualLock = true ∧
    "UNLOCK".data ∉ (Client.handleDistanceChange ⟨true, [], .LOCKED, true, 0⟩ (-60) 5000).2 ∧
    (Client.notifyCallback ⟨true, [], .LOCKED, true, 0⟩
        "Door Unlocked".data).isManualLock = false :=
  ⟨c9_manual_override.1 ⟨true, [], .NONE, false, 0⟩ rfl,
   c9_manual_override.2.1 ⟨true, [], .LOCKED, true, 0⟩ (-60) 5000 rfl,
   c9_manual_override.2.2.2.2 ⟨true, [], .LOCKED, true, 0⟩ "Door Unlocked".data (by decide)⟩

/-- C7 counterexample: a disconnect recorded as an authentication failure
performs no automatic lock even though the lock is open. -/
theorem c7_counterexample :
    (Server.step shaZero .disconnect
        { Server.initState with deviceConnected := true,
                                lastDisconnectReason := .AUTH_FAILURE }).1.isLocked = false ∧
    (Server.step shaZero .disconnect
        { Server.initState with deviceConnected := true,
                                lastDisconnectReason := .AUTH_FAILURE }).2 = [] := by
  decide

/-- C7 amended: on a disconnect whose recorded reason is NORMAL, an open
lock triggers the automatic LOCK pulse and the lock state becomes Locked,
while an already-locked state is left unchanged with no actuation. -/
theorem c7_autolock_on_normal_disconnect :
    ∀ (sha256 : List Nat → List Nat) (st : Server.CtrlState),
      st.lastDisconnectReason = .NORMAL →
      (st.isLocked = false →
        Server.step sha256 .disconnect st =
          ({ st with deviceConnected := false, isAuthenticated := false,
                     bleAuthenticated := false, isLocked := true },
           [.controlPin .LOCK 500])) ∧
      (st.isLocked = true →
        Server.step sha256 .disconnect st =
          ({ st with deviceConnected := false, isAuthenticated := false,
                     bleAuthenticated := false }, [])) := by
  intro sha256 st hR
  constructor
  · intro hL
    simp [Server.step, Server.onDisconnect, Server.performLock, hR, hL]
  · intro hL
    simp [Server.step, Server.onDisconnect, Server.performLock, hR, hL]

/-- Witness for C7 at concrete inputs. -/
theorem c7_witness :
    (Server.step shaZero .disconnect
        { Server.initState with deviceConnected := true }).1.isLocked = true := by
  have h := (c7_autolock_on_normal_disconnect shaZero
      { Server.initState with deviceConnected := true } rfl).1 rfl
  rw [h]

/-- Erasing a key makes its lookup fail. -/
theorem mapLookup_eraseKey_self {α : Type} (m : List (Chars × α)) (k : Chars) :
    mapLookup (eraseKey m k) k = none := by
  induction m with
  | nil => rfl
  | cons p tl ih =>
    by_cases h : p.1 == k
    · simpa [eraseKey, List.filter_cons, h] using ih
    · simp only [eraseKey, List.filter_cons, h, Bool.not_false, if_true] at ih ⊢
      simp [mapLookup, h, ih]

/-- With no lockout record the gate passes the state through unchanged. -/
theorem lockoutGate_no_record (st : Server.CtrlState) (now : Nat)
    (h : mapLookup st.lockoutUntil st.lastRemoteAddr = none) :
    Server.lockoutGate st now = some st := by
  simp [Server.lockoutGate, h]

/-- An unexpired lockout record closes the gate. -/
theorem lockoutGate_locked (st : Server.CtrlState) (now t : Nat)
    (h : mapLookup st.lockoutUntil st.lastRemoteAddr = some t) (hlt : now < t) :
    Server.lockoutGate st now = none := by
  simp [Server.lockoutGate, h, hlt]

/-- An expired lockout record is pruned by the gate and the failure counter
reset. -/
theorem lockoutGate_expired (st : Server.CtrlState) (now t : Nat)
    (h : mapLookup st.lockoutUntil st.lastRemoteAddr = some t) (hge : ¬ now < t) :
    Server.lockoutGate st now =
      some { st with lockoutUntil := eraseKey st.lockoutUntil st.lastRemoteAddr,
                     failedAttempts := setKey st.failedAttempts st.lastRemoteAddr 0 } := by
  simp [Server.lockoutGate, h, hge]

/-- The gate only touches the lockout table and the failure counters. -/
theorem lockoutGate_preserves (st : Server.CtrlState) (now : Nat)
    (st1 : Server.CtrlState) (h : Server.lockoutGate st now = some st1) :
    st1.isAuthenticated = st.isAuthenticated ∧
    st1.bleAuthenticated = st.bleAuthenticated ∧
    st1.challenges = st.challenges ∧
    st1.lastRemoteAddr = st.lastRemoteAddr ∧
    st1.whitelist = st.whitelist := by
  unfold Server.lockoutGate at h
  split at h
  · split at h
    · cases h
    · cases Option.some.inj h
      exact ⟨rfl, rfl, rfl, rfl, rfl⟩
  · cases Option.some.inj h
    exact ⟨rfl, rfl, rfl, rfl, rfl⟩

/-- The `onWrite` body on a `RESP:` payload whose digest matches: set the
application-authentication flag, whitelist the peer when link-authenticated
and consume the challenge. -/
theorem onWriteBody_resp_match (sha256 : List Nat → List Nat)
    (st1 : Server.CtrlState) (v : Chars) (now : Nat) (nonce : List Nat)
    (hp : "RESP:".data.isPrefixOf v = true)
    (hc : mapLookup st1.challenges st1.lastRemoteAddr = some nonce)
    (hh : equalsIgnoreCase
        (Server.toHex (Server.compute_hmac_sha256 sha256 Server.APP_SECRET nonce))
        (v.drop 5) = true) :
    Server.onWriteBody sha256 st1 v now =
      ({ st1 with isAuthenticated := true,
                  whitelist := if st1.bleAuthenticated
                               then Server.addToWhitelist st1.whitelist st1.lastRemoteAddr
                               else st1.whitelist,
                  challenges := eraseKey st1.challenges st1.lastRemoteAddr },
       [.notify "AUTH_OK".data]) := by
  by_cases hb : st1.bleAuthenticated
  · simp [Server.onWriteBody, hp, hc, hh, hb]
  · simp [Server.onWriteBody, hp, hc, hh, hb]

/-- The `onWrite` body on a `RESP:` payload whose digest does not match: count
the failure (locking out at the threshold), answer AUTH_FAIL, and keep the
challenge. -/
theorem onWriteBody_resp_mismatch (sha256 : List Nat → List Nat)
    (st1 : Server.CtrlState) (v : Chars) (now : Nat) (nonce : List Nat)
    (hp : "RESP:".data.isPrefixOf v = true)
    (hc : mapLookup st1.challenges st1.lastRemoteAddr = some nonce)
    (hh : equalsIgnoreCase
        (Server.toHex (Server.compute_hmac_sha256 sha256 Server.APP_SECRET nonce))
        (v.drop 5) = false) :
    Server.onWriteBody sha256 st1 v now =
      ({ st1 with
          failedAttempts :=
            (Server.recordFailure st1.failedAttempts st1.lockoutUntil st1.lastRemoteAddr now).1,
          lockoutUntil :=
            (Server.recordFailure st1.failedAttempts st1.lockoutUntil st1.lastRemoteAddr now).2 },
       [.notify "AUTH_FAIL".data]) := by
  simp [Server.onWriteBody, hp, hc, hh]

/-- C2 counterexample: a peer locked out until t = 1000 still receives and
stores a fresh application challenge at t = 500 through the security
callback's authentication-complete path, i.e. it reaches ChallengeIssued
while locked out — that path never checks `isLockedOut`, and neither does
`onConfirmPIN`. -/
theorem c2_counterexample :
    (Server.step shaZero (.secAuthComplete "AA".data true [1] 500)
        { Server.initState with lastRemoteAddr := "AA".data,
                                lockoutUntil := [("AA".data, 1000)] }).1.challenges =
      [("AA".data, [1])] ∧ 500 < 1000 := by decide

/-- C2 amended: only the characteristic write handler gates on the lockout
record: while now < expiry every write from the locked-out peer is ignored
with no state mutated (so the peer cannot become application-authenticated
by any write while locked out); link-level PIN confirmation and challenge
issuance do not perform this check. -/
theorem c2_lockedout_write_ignored :
    ∀ (sha256 : List Nat → List Nat) (st : Server.CtrlState) (v : Chars) (now t : Nat),
      mapLookup st.lockoutUntil st.lastRemoteAddr = some t → now < t →
      Server.step sha256 (.write v now) st = (st, []) := by
  intro sha256 st v now t h hlt
  simp [Server.step, Server.onWrite, lockoutGate_locked st now t h hlt]

/-- Witness for C2 at concrete inputs. -/
theorem c2_witness :
    Server.step shaZero (.write "LOCK".data 500)
        { Server.initState with lastRemoteAddr := "AA".data,
                                lockoutUntil := [("AA".data, 1000)] } =
      ({ Server.initState with lastRemoteAddr := "AA".data,
                               lockoutUntil := [("AA".data, 1000)] }, []) :=
  c2_lockedout_write_ignored shaZero _ "LOCK".data 500 1000 (by decide) (by decide)

/-- C4 counterexample: a non-matching response leaves the outstanding
challenge in place — the mismatch branch of `onWrite` never erases it — so
the nonce is not consumed by the first response. -/
theorem c4_counterexample :
    (Server.step shaZero (.write "RESP:FF".data 0)
        { Server.initState with lastRemoteAddr := "AA".data,
                                challenges := [("AA".data, [1])] }).1.challenges =
      [("AA".data, [1])] ∧
    (Server.step shaZero (.write "RESP:FF".data 0)
        { Server.initState with lastRemoteAddr := "AA".data,
                                challenges := [("AA".data, [1])] }).2 =
      [.notify "AUTH_FAIL".data] := by decide

/-- C4 amended: on a mismatching `RESP:` the handler counts one failure and
replies AUTH_FAIL but keeps the challenge outstanding; a nonce is consumed
only by a matching response. -/
theorem c4_mismatch_keeps_challenge :
    ∀ (sha256 : List Nat → List Nat) (st : Server.CtrlState) (v : Chars)
      (now : Nat) (nonce : List Nat),
      mapLookup st.lockoutUntil st.lastRemoteAddr = none →
      "RESP:".data.isPrefixOf v = true →
      mapLookup st.challenges st.lastRemoteAddr = some nonce →
      (equalsIgnoreCase
          (Server.toHex (Server.compute_hmac_sha256 sha256 Server.APP_SECRET nonce))
          (v.drop 5) = false →
        Server.step sha256 (.write v now) st =
          ({ st with
              failedAttempts :=
                (Server.recordFailure st.failedAttempts st.lockoutUntil st.lastRemoteAddr now).1,
              lockoutUntil :=
                (Server.recordFailure st.failedAttempts st.lockoutUntil st.lastRemoteAddr now).2 },
           [.notify "AUTH_FAIL".data])) ∧
      (equalsIgnoreCase
          (Server.toHex (Server.compute_hmac_sha256 sha256 Server.APP_SECRET nonce))
          (v.drop 5) = true →
        mapLookup (Server.step sha256 (.write v now) st).1.challenges
          st.lastRemoteAddr = none) := by
  intro sha256 st v now nonce h0 hp hc
  constructor
  · intro hh
    simp [Server.step, Server.onWrite, lockoutGate_no_record st now h0,
          onWriteBody_resp_mismatch sha256 st v now nonce hp hc hh]
  · intro hh
    simp [Server.step, Server.onWrite, lockoutGate_no_record st now h0,
          onWriteBody_resp_match sha256 st v now nonce hp hc hh,
          mapLookup_eraseKey_self]

/-- Witness for C4 at concrete inputs. -/
theorem c4_witness :
    (Server.step shaZero (.write "RESP:FF".data 0)
        { Server.initState with lastRemoteAddr := "AA".data,
                                challenges := [("AA".data, [1])] }).1.failedAttempts =
      [("AA".data, 1)] := by
  have h := (c4_mismatch_keeps_challenge shaZero
      { Server.initState with lastRemoteAddr := "AA".data,
                              challenges := [("AA".data, [1])] }
      "RESP:FF".data 0 [1] (by decide) (by decide) (by decide)).1 (by decide)
  rw [h]
  decide

/-- C6 counterexample: the lowercase command "lock" — in the vocabulary up
to case — is answered INVALID_COMMAND with no actuation, because the
dispatcher looks the raw text up in `COMMAND_RESPONSES`; recognition is not
case-insensitive. -/
theorem c6_counterexample :
    Server.step shaZero (.write "lock".data 0)
        { Server.initState with bleAuthenticated := true, isAuthenticated := true,
                                lastRemoteAddr := "AA".data } =
      ({ Server.initState with bleAuthenticated := true, isAuthenticated := true,
                               lastRemoteAddr := "AA".data },
       [.notify "INVALID_COMMAND".data]) := by decide

/-- C6 amended: for an authenticated peer the keyword is matched exactly
(case-sensitively) against the vocabulary: each exact command performs its
fixed actuation and fixed acknowledgement, and any other text — including
wrong-case variants — yields exactly INVALID_COMMAND and no actuation. -/
theorem c6_exact_command_dispatch :
    ∀ (sha256 : List Nat → List Nat) (st : Server.CtrlState) (now : Nat),
      mapLookup st.lockoutUntil st.lastRemoteAddr = none →
      st.bleAuthenticated = true → st.isAuthenticated = true →
      (Server.step sha256 (.write "LOCK".data now) st =
        ({ st with isLocked := true },
         [.controlPin .LOCK 500, .notify "Door Locked".data])) ∧
      (Server.step sha256 (.write "UNLOCK".data now) st =
        ({ st with isLocked := false },
         [.controlPin .UNLOCK 500, .notify "Door Unlocked".data])) ∧
      (Server.step sha256 (.write "TRUNK".data now) st =
        (st, [.controlPin .TRUNK 1000, .notify "Trunk Released".data])) ∧
      (Server.step sha256 (.write "LOCATE".data now) st =
        (st, [.blinkPin .LOCATE 3000, .notify "Located".data])) ∧
      (Server.step sha256 (.write "ELIGHT".data now) st =
        (st, [.controlPin .ELIGHT 30000, .notify "Emergency Light".data])) ∧
      (∀ v : Chars, "RESP:".data.isPrefixOf v = false →
        mapLookup Server.COMMAND_RESPONSES v = none →
        Server.step sha256 (.write v now) st =
          (st, [.notify "INVALID_COMMAND".data])) := by
  intro sha256 st now h0 hb ha
  refine ⟨?_, ?_, ?_, ?_, ?_, ?_⟩
  · simp +decide [Server.step, Server.onWrite, Server.onWriteBody,
      Server.COMMAND_RESPONSES, mapLookup, Server.parseCommand,
      lockoutGate_no_record st now h0, hb, ha]
  · simp +decide [Server.step, Server.onWrite, Server.onWriteBody,
      Server.COMMAND_RESPONSES, mapLookup, Server.parseCommand,
      lockoutGate_no_record st now h0, hb, ha]
  · simp +decide [Server.step, Server.onWrite, Server.onWriteBody,
      Server.COMMAND_RESPONSES, mapLookup, Server.parseCommand,
      lockoutGate_no_record st now h0, hb, ha]
  · simp +decide [Server.step, Server.onWrite, Server.onWriteBody,
      Server.COMMAND_RESPONSES, mapLookup, Server.parseCommand,
      lockoutGate_no_record st now h0, hb, ha]
  · simp +decide [Server.step, Server.onWrite, Server.onWriteBody,
      Server.COMMAND_RESPONSES, mapLookup, Server.parseCommand,
      lockoutGate_no_record st now h0, hb, ha]
  · intro v hpv hcv
    simp [Server.step, Server.onWrite, Server.onWriteBody,
      lockoutGate_no_record st now h0, hpv, hcv, hb, ha]

/-- Witness for C6 at concrete inputs. -/
theorem c6_witness :
    Server.step shaZero (.write "TRUNK".data 3)
        { Server.initState with bleAuthenticated := true, isAuthenticated := true } =
      ({ Server.initState with bleAuthenticated := true, isAuthenticated := true },
       [.controlPin .TRUNK 1000, .notify "Trunk Released".data]) :=
  (c6_exact_command_dispatch shaZero
      { Server.initState with bleAuthenticated := true, isAuthenticated := true }
      3 (by decide) rfl rfl).2.2.1

/-- If the write body comes out with the application-authentication flag
set, either it was already set or the payload was a verifying `RESP:`. -/
theorem onWriteBody_auth (sha256 : List Nat → List Nat)
    (st1 : Server.CtrlState) (v : Chars) (now : Nat)
    (h : (Server.onWriteBody sha256 st1 v now).1.isAuthenticated = true) :
    st1.isAuthenticated = true ∨
      ("RESP:".data.isPrefixOf v = true ∧
        ∃ nonce, mapLookup st1.challenges st1.lastRemoteAddr = some nonce ∧
          equalsIgnoreCase
            (Server.toHex (Server.compute_hmac_sha256 sha256 Server.APP_SECRET nonce))
            (v.drop 5) = true) := by
  unfold Server.onWriteBody at h
  dsimp only at h
  split at h
  · rename_i hp
    split at h
    · exact Or.inl h
    · rename_i nonce hc
      split at h
      · rename_i hh
        exact Or.inr ⟨hp, nonce, hc, hh⟩
      · exact Or.inl h
  · split at h
    · split at h
      · split at h
        · exact Or.inl h
        · exact Or.inl h
      · exact Or.inl h
    · split at h
      · split at h <;> exact Or.inl h
      · exact Or.inl h

/-- C1: the application-authentication flag starts false and is set by no
event other than a characteristic write carrying a `RESP:` payload whose
digest verifies, case-insensitively, against the HMAC of the peer's
outstanding challenge under the shared secret. -/
theorem c1_auth_only_from_valid_resp :
    Server.initState.isAuthenticated = false ∧
    ∀ (sha256 : List Nat → List Nat) (ev : Server.Event) (st : Server.CtrlState),
      (Server.step sha256 ev st).1.isAuthenticated = true →
      st.isAuthenticated = true ∨ validRespStep sha256 st ev := by
  refine ⟨rfl, ?_⟩
  intro sha256 ev st h
  cases ev with
  | gapConnParams mac now =>
    left
    unfold Server.step Server.gapConnParams at h
    dsimp only at h
    split at h
    · split at h <;> exact h
    · exact h
  | gapAuthCmpl mac success nonce now =>
    left
    unfold Server.step Server.gapAuthCmpl at h
    dsimp only at h
    split at h <;> exact h
  | connect =>
    unfold Server.step Server.onConnect at h
    simp at h
  | disconnect =>
    unfold Server.step Server.onDisconnect Server.performLock at h
    dsimp only at h
    split at h
    · split at h
      · simp at h
      · simp at h
    · simp at h
  | write v now =>
    unfold Server.step Server.onWrite at h
    dsimp only at h
    split at h
    · exact Or.inl h
    · rename_i st1 hgate
      have hpres := lockoutGate_preserves st now st1 hgate
      rcases onWriteBody_auth sha256 st1 v now h with h1 | ⟨hp, nonce, hc, hh⟩
      · left
        rw [← hpres.1]
        exact h1
      · right
        refine ⟨v, now, rfl, hp, nonce, ?_, hh⟩
        rw [← hpres.2.2.1, ← hpres.2.2.2.1]
        exact hc
  | confirmPIN pk now =>
    left
    unfold Server.step Server.onConfirmPIN at h
    dsimp only at h
    split at h <;> exact h
  | secAuthComplete mac success nonce now =>
    left
    unfold Server.step Server.secAuthComplete at h
    dsimp only at h
    split at h <;> exact h
  | loopPrune now =>
    left
    exact h

/-- Witness for C1 at concrete inputs. -/
theorem c1_witness :
    ({ Server.initState with isAuthenticated := true } : Server.CtrlState).isAuthenticated = true ∨
      validRespStep shaZero { Server.initState with isAuthenticated := true }
        (.loopPrune 0) :=
  c1_auth_only_from_valid_resp.2 shaZero (.loopPrune 0)
    { Server.initState with isAuthenticated := true } (by decide)

/-- The `addToWhitelist` never removes a member. -/
theorem mem_addToWhitelist (wl : List Chars) (mac a : Chars) (h : a ∈ wl) :
    a ∈ Server.addToWhitelist wl mac := by
  unfold Server.addToWhitelist
  split
  · exact List.mem_append_left _ h
  · exact h

/-- The write body either leaves the whitelist unchanged or extends it with
the current peer after a verifying `RESP:` while link-authenticated. -/
theorem onWriteBody_whitelist (sha256 : List Nat → List Nat)
    (st1 : Server.CtrlState) (v : Chars) (now : Nat) :
    (Server.onWriteBody sha256 st1 v now).1.whitelist = st1.whitelist ∨
    ((Server.onWriteBody sha256 st1 v now).1.whitelist =
        Server.addToWhitelist st1.whitelist st1.lastRemoteAddr ∧
      st1.bleAuthenticated = true ∧
      "RESP:".data.isPrefixOf v = true ∧
      ∃ nonce, mapLookup st1.challenges st1.lastRemoteAddr = some nonce ∧
        equalsIgnoreCase
          (Server.toHex (Server.compute_hmac_sha256 sha256 Server.APP_SECRET nonce))
          (v.drop 5) = true) := by
  unfold Server.onWriteBody
  dsimp only
  split
  · rename_i hp
    split
    · exact Or.inl rfl
    · rename_i nonce hc
      split
      · rename_i hh
        split
        · rename_i hb
          exact Or.inr ⟨rfl, hb, hp, nonce, hc, hh⟩
        · exact Or.inl rfl
      · exact Or.inl rfl
  · split
    · split
      · split
        · exact Or.inl rfl
        · exact Or.inl rfl
      · exact Or.inl rfl
    · split
      · split <;> exact Or.inl rfl
      · exact Or.inl rfl

/-- C5: whitelist membership is monotonic under every event, the whitelist
is mutated only by a verifying challenge response from a link-authenticated
peer, and re-adding an already-whitelisted peer leaves the list unchanged
(no duplicates). -/
theorem c5_whitelist_monotonic :
    (∀ (sha256 : List Nat → List Nat) (ev : Server.Event)
       (st : Server.CtrlState) (a : Chars),
        a ∈ st.whitelist → a ∈ (Server.step sha256 ev st).1.whitelist) ∧
    (∀ (sha256 : List Nat → List Nat) (ev : Server.Event) (st : Server.CtrlState),
        (Server.step sha256 ev st).1.whitelist ≠ st.whitelist →
        validRespStep sha256 st ev ∧ st.bleAuthenticated = true) ∧
    (∀ (wl : List Chars) (mac : Chars), Server.isWhitelisted wl mac = true →
        Server.addToWhitelist wl mac = wl) := by
  refine ⟨?_, ?_, ?_⟩
  · intro sha256 ev st a h
    cases ev with
    | gapConnParams mac now =>
      unfold Server.step Server.gapConnParams
      dsimp only
      split
      · split <;> exact h
      · exact h
    | gapAuthCmpl mac success nonce now =>
      unfold Server.step Server.gapAuthCmpl
      dsimp only
      split <;> exact h
    | connect => exact h
    | disconnect =>
      unfold Server.step Server.onDisconnect Server.performLock
      dsimp only
      split
      · split <;> exact h
      · exact h
    | write v now =>
      unfold Server.step Server.onWrite
      dsimp only
      split
      · exact h
      · rename_i st1 hgate
        have hpres := lockoutGate_preserves st now st1 hgate
        rcases onWriteBody_whitelist sha256 st1 v now with hw | ⟨hw, _, _, _⟩
        · rw [hw, hpres.2.2.2.2]
          exact h
        · rw [hw]
          apply mem_addToWhitelist
          rw [hpres.2.2.2.2]
          exact h
    | confirmPIN pk now =>
      unfold Server.step Server.onConfirmPIN
      dsimp only
      split <;> exact h
    | secAuthComplete mac success nonce now =>
      unfold Server.step Server.secAuthComplete
      dsimp only
      split <;> exact h
    | loopPrune now => exact h
  · intro sha256 ev st hne
    cases ev with
    | gapConnParams mac now =>
      exfalso
      apply hne
      unfold Server.step Server.gapConnParams
      dsimp only
      split
      · split <;> rfl
      · rfl
    | gapAuthCmpl mac success nonce now =>
      exfalso
      apply hne
      unfold Server.step Server.gapAuthCmpl
      dsimp only
      split <;> rfl
    | connect => exact absurd rfl hne
    | disconnect =>
      exfalso
      apply hne
      unfold Server.step Server.onDisconnect Server.performLock
      dsimp only
      split
      · split <;> rfl
      · rfl
    | write v now =>
      rw [show Server.step sha256 (.write v now) st = Server.onWrite sha256 st v now
            from rfl] at hne
      unfold Server.onWrite at hne
      cases hgate : Server.lockoutGate st now with
      | none =>
        rw [hgate] at hne
        exact absurd rfl hne
      | some st1 =>
        rw [hgate] at hne
        have hpres := lockoutGate_preserves st now st1 hgate
        rcases onWriteBody_whitelist sha256 st1 v now with hw | ⟨hw, hb, hp, nonce, hc, hh⟩
        · rw [hw, hpres.2.2.2.2] at hne
          exact absurd rfl hne
        · refine ⟨⟨v, now, rfl, hp, nonce, ?_, hh⟩, ?_⟩
          · rw [← hpres.2.2.1, ← hpres.2.2.2.1]
            exact hc
          · rw [← hpres.2.1]
            exact hb
    | confirmPIN pk now =>
      exfalso
      apply hne
      unfold Server.step Server.onConfirmPIN
      dsimp only
      split <;> rfl
    | secAuthComplete mac success nonce now =>
      exfalso
      apply hne
      unfold Server.step Server.secAuthComplete
      dsimp only
      split <;> rfl
    | loopPrune now => exact absurd rfl hne
  · intro wl mac h
    unfold Server.addToWhitelist
    simp [h]

/-- Witness for C5 at concrete inputs. -/
theorem c5_witness :
    "AA".data ∈ (Server.step shaZero Server.Event.connect
        { Server.initState with whitelist := ["AA".data] }).1.whitelist ∧
    Server.addToWhitelist ["AA".data] "AA".data = ["AA".data] ∧
    (validRespStep shaZero
        { Server.initState with lastRemoteAddr := "AA".data, bleAuthenticated := true,
                                challenges := [("AA".data, [1])] }
        (.write ("RESP:".data ++ List.replicate 64 '0') 0) ∧
      ({ Server.initState with lastRemoteAddr := "AA".data, bleAuthenticated := true,
                               challenges := [("AA".data, [1])] } :
          Server.CtrlState).bleAuthenticated = true) :=
  ⟨c5_whitelist_monotonic.1 shaZero .connect
      { Server.initState with whitelist := ["AA".data] } "AA".data (by decide),
   c5_whitelist_monotonic.2.2 ["AA".data] "AA".data (by decide),
   c5_whitelist_monotonic.2.1 shaZero
      (.write ("RESP:".data ++ List.replicate 64 '0') 0)
      { Server.initState with lastRemoteAddr := "AA".data, bleAuthenticated := true,
                              challenges := [("AA".data, [1])] } (by decide)⟩

/-- C3 counterexample: the fifth consecutive response failure creates the
lockout record but the write handler does not force a disconnection — its
outputs carry no `disconnectLink` (only link-level failures disconnect). -/
theorem c3_counterexample :
    (Server.step shaZero (.write "RESP:FF".data 7)
        { Server.initState with lastRemoteAddr := "AA".data,
                                challenges := [("AA".data, [1])],
                                failedAttempts := [("AA".data, 4)] }).1.lockoutUntil =
      [("AA".data, 300007)] ∧
    Server.Output.disconnectLink ∉
      (Server.step shaZero (.write "RESP:FF".data 7)
          { Server.initState with lastRemoteAddr := "AA".data,
                                  challenges := [("AA".data, [1])],
                                  failedAttempts := [("AA".data, 4)] }).2 := by
  decide

/-- C3 amended: five consecutive bad challenge responses drive the failure
counter to 5 and create a lockout expiring 5 minutes (300000 ms) later,
without disconnecting the peer; while now < expiry even the correct
response is ignored; the first write at or after expiry prunes the record,
resets the counter to 0, and the correct response then authenticates the
peer (round-trip: fail five times, locked out, wait, succeed). -/
theorem c3_lockout_roundtrip :
    ∀ (sha256 : List Nat → List Nat) (nonce : List Nat) (vb vg : Chars),
      "RESP:".data.isPrefixOf vb = true →
      equalsIgnoreCase
        (Server.toHex (Server.compute_hmac_sha256 sha256 Server.APP_SECRET nonce))
        (vb.drop 5) = false →
      "RESP:".data.isPrefixOf vg = true →
      equalsIgnoreCase
        (Server.toHex (Server.compute_hmac_sha256 sha256 Server.APP_SECRET nonce))
        (vg.drop 5) = true →
      ∃ st5 : Server.CtrlState,
        (fun s => (Server.step sha256 (.write vb 0) s).1)^[5]
          { Server.initState with lastRemoteAddr := "AA".data,
                                  challenges := [("AA".data, nonce)] } = st5 ∧
        mapLookup st5.lockoutUntil "AA".data = some 300000 ∧
        mapLookup st5.challenges "AA".data = some nonce ∧
        Server.step sha256 (.write vg 299999) st5 = (st5, []) ∧
        (Server.step sha256 (.write vg 300000) st5).1.isAuthenticated = true ∧
        mapLookup (Server.step sha256 (.write vg 300000) st5).1.lockoutUntil
          "AA".data = none ∧
        lookupD (Server.step sha256 (.write vg 300000) st5).1.failedAttempts
          "AA".data = 0 ∧
        (Server.step sha256 (.write vg 300000) st5).2 =
          [.notify "AUTH_OK".data] := by
  intro sha256 nonce vb vg hpb hbad hpg hgood
  have h1 : (Server.step sha256 (.write vb 0)
      { Server.initState with lastRemoteAddr := "AA".data,
                              challenges := [("AA".data, nonce)] }).1 =
      { Server.initState with lastRemoteAddr := "AA".data,
                              challenges := [("AA".data, nonce)],
                              failedAttempts := [("AA".data, 1)] } := by
    simp +decide [Server.step, Server.onWrite, Server.onWriteBody, Server.lockoutGate,
      mapLookup, setKey, lookupD, Server.recordFailure, Server.MAX_FAILED_ATTEMPTS,
      Server.LOCKOUT_DURATION_MS, hpb, hbad]
  have h2 : (Server.step sha256 (.write vb 0)
      { Server.initState with lastRemoteAddr := "AA".data,
                              challenges := [("AA".data, nonce)],
                              failedAttempts := [("AA".data, 1)] }).1 =
      { Server.initState with lastRemoteAddr := "AA".data,
                              challenges := [("AA".data, nonce)],
                              failedAttempts := [("AA".data, 2)] } := by
    simp +decide [Server.step, Server.onWrite, Server.onWriteBody, Server.lockoutGate,
      mapLookup, setKey, lookupD, Server.recordFailure, Server.MAX_FAILED_ATTEMPTS,
      Server.LOCKOUT_DURATION_MS, hpb, hbad]
  have h3 : (Server.step sha256 (.write vb 0)
      { Server.initState with lastRemoteAddr := "AA".data,
                              challenges := [("AA".data, nonce)],
                              failedAttempts := [("AA".data, 2)] }).1 =
      { Server.initState with lastRemoteAddr := "AA".data,
                              challenges := [("AA".data, nonce)],
                              failedAttempts := [("AA".data, 3)] } := by
    simp +decide [Server.step, Server.onWrite, Server.onWriteBody, Server.lockoutGate,
      mapLookup, setKey, lookupD, Server.recordFailure, Server.MAX_FAILED_ATTEMPTS,
      Server.LOCKOUT_DURATION_MS, hpb, hbad]
  have h4 : (Server.step sha256 (.write vb 0)
      { Server.initState with lastRemoteAddr := "AA".data,
                              challenges := [("AA".data, nonce)],
                              failedAttempts := [("AA".data, 3)] }).1 =
      { Server.initState with lastRemoteAddr := "AA".data,
                              challenges := [("AA".data, nonce)],
                              failedAttempts := [("AA".data, 4)] } := by
    simp +decide [Server.step, Server.onWrite, Server.onWriteBody, Server.lockoutGate,
      mapLookup, setKey, lookupD, Server.recordFailure, Server.MAX_FAILED_ATTEMPTS,
      Server.LOCKOUT_DURATION_MS, hpb, hbad]
  have h5 : (Server.step sha256 (.write vb 0)
      { Server.initState with lastRemoteAddr := "AA".data,
                              challenges := [("AA".data, nonce)],
                              failedAttempts := [("AA".data, 4)] }).1 =
      { Server.initState with lastRemoteAddr := "AA".data,
                              challenges := [("AA".data, nonce)],
                              failedAttempts := [("AA".data, 5)],
                              lockoutUntil := [("AA".data, 300000)] } := by
    simp +decide [Server.step, Server.onWrite, Server.onWriteBody, Server.lockoutGate,
      mapLookup, setKey, lookupD, Server.recordFailure, Server.MAX_FAILED_ATTEMPTS,
      Server.LOCKOUT_DURATION_MS, hpb, hbad]
  have hfin : Server.step sha256 (.write vg 300000)
      { Server.initState with lastRemoteAddr := "AA".data,
                              challenges := [("AA".data, nonce)],
                              failedAttempts := [("AA".data, 5)],
                              lockoutUntil := [("AA".data, 300000)] } =
      ({ Server.initState with lastRemoteAddr := "AA".data,
                               isAuthenticated := true,
                               failedAttempts := [("AA".data, 0)] },
       [.notify "AUTH_OK".data]) := by
    simp +decide [Server.step, Server.onWrite, Server.onWriteBody, Server.lockoutGate,
      mapLookup, setKey, eraseKey, lookupD, Server.recordFailure,
      Server.addToWhitelist, Server.isWhitelisted, Server.MAX_FAILED_ATTEMPTS,
      Server.LOCKOUT_DURATION_MS, hpg, hgood]
  refine ⟨{ Server.initState with lastRemoteAddr := "AA".data,
                                  challenges := [("AA".data, nonce)],
                                  failedAttempts := [("AA".data, 5)],
                                  lockoutUntil := [("AA".data, 300000)] },
    ?_, by simp +decide [mapLookup], by simp +decide [mapLookup], ?_, ?_, ?_, ?_, ?_⟩
  · simp only [Function.iterate_succ_apply, Function.iterate_zero_apply]
    rw [h1, h2, h3, h4, h5]
  · simp only [Server.step, Server.onWrite,
      lockoutGate_locked
        { Server.initState with lastRemoteAddr := "AA".data,
                                challenges := [("AA".data, nonce)],
                                failedAttempts := [("AA".data, 5)],
                                lockoutUntil := [("AA".data, 300000)] }
        299999 300000 (by simp +decide [mapLookup]) (by omega)]
  · rw [hfin]
  · rw [hfin]
    simp +decide [mapLookup]
  · rw [hfin]
    simp +decide [lookupD, mapLookup]
  · rw [hfin]

/-- Witness for C3 at concrete inputs. -/
theorem c3_witness :
    ∃ st5 : Server.CtrlState,
      (fun s => (Server.step shaZero (.write "RESP:FF".data 0) s).1)^[5]
        { Server.initState with lastRemoteAddr := "AA".data,
                                challenges := [("AA".data, [1])] } = st5 ∧
      (Server.step shaZero
          (.write ("RESP:".data ++ List.replicate 64 '0') 300000)
          st5).1.isAuthenticated = true := by
  obtain ⟨st5, ha, _, _, _, hb, _, _, _⟩ :=
    c3_lockout_roundtrip shaZero [1] "RESP:FF".data
      ("RESP:".data ++ List.replicate 64 '0')
      (by decide) (by decide) (by decide) (by decide)
  exact ⟨st5, ha, hb⟩

end IOTLock
